import Mathlib

/-!
Shallow embedding of the voice-detection service in `main.py`: the MD5-based
deterministic pseudo-classifier, Python's lenient base64 decoding, the
language-hint resolver, and the `/api/detect` request handler with its
API-key authentication. Bytes are modelled as `List Nat` (each entry < 256),
machine words as `Nat` reduced modulo `2 ^ 32`, and the float confidence as
`ℚ` (every reachable confidence is an exact multiple of 1/100, for which
Python's float arithmetic, `round(_, 3)` and `:.1%` formatting agree with
exact rational arithmetic).
-/

set_option maxRecDepth 1000000

/-! ### MD5 (RFC 1321), as used by `hashlib.md5` -/

def u32 : Nat := 2 ^ 32

def mask32 : Nat := u32 - 1

/-- 32-bit left rotation on words below `2 ^ 32`. -/
def rotl32 (x n : Nat) : Nat := ((x <<< n) ||| (x >>> (32 - n))) % u32

/-- The 64 MD5 round constants `K[i] = floor(2^32 * |sin(i+1)|)`. -/
def md5K : List Nat := [
  0xd76aa478, 0xe8c7b756, 0x242070db, 0xc1bdceee,
  0xf57c0faf, 0x4787c62a, 0xa8304613, 0xfd469501,
  0x698098d8, 0x8b44f7af, 0xffff5bb1, 0x895cd7be,
  0x6b901122, 0xfd987193, 0xa679438e, 0x49b40821,
  0xf61e2562, 0xc040b340, 0x265e5a51, 0xe9b6c7aa,
  0xd62f105d, 0x02441453, 0xd8a1e681, 0xe7d3fbc8,
  0x21e1cde6, 0xc33707d6, 0xf4d50d87, 0x455a14ed,
  0xa9e3e905, 0xfcefa3f8, 0x676f02d9, 0x8d2a4c8a,
  0xfffa3942, 0x8771f681, 0x6d9d6122, 0xfde5380c,
  0xa4beea44, 0x4bdecfa9, 0xf6bb4b60, 0xbebfbc70,
  0x289b7ec6, 0xeaa127fa, 0xd4ef3085, 0x04881d05,
  0xd9d4d039, 0xe6db99e5, 0x1fa27cf8, 0xc4ac5665,
  0xf4292244, 0x432aff97, 0xab9423a7, 0xfc93a039,
  0x655b59c3, 0x8f0ccc92, 0xffeff47d, 0x85845dd1,
  0x6fa87e4f, 0xfe2ce6e0, 0xa3014314, 0x4e0811a1,
  0xf7537e82, 0xbd3af235, 0x2ad7d2bb, 0xeb86d391]

/-- The 64 MD5 per-round left-rotation amounts. -/
def md5S : List Nat := [
  7, 12, 17, 22, 7, 12, 17, 22, 7, 12, 17, 22, 7, 12, 17, 22,
  5, 9, 14, 20, 5, 9, 14, 20, 5, 9, 14, 20, 5, 9, 14, 20,
  4, 11, 16, 23, 4, 11, 16, 23, 4, 11, 16, 23, 4, 11, 16, 23,
  6, 10, 15, 21, 6, 10, 15, 21, 6, 10, 15, 21, 6, 10, 15, 21]

/-- The MD5 nonlinear functions F, G, H, I (bitwise NOT of a word `w < 2^32`
is `w ^^^ mask32`). -/
def md5F (i b c d : Nat) : Nat :=
  if i < 16 then (b &&& c) ||| ((b ^^^ mask32) &&& d)
  else if i < 32 then (d &&& b) ||| ((d ^^^ mask32) &&& c)
  else if i < 48 then b ^^^ c ^^^ d
  else c ^^^ (b ||| (d ^^^ mask32))

/-- The MD5 message-word index for round `i`. -/
def md5G (i : Nat) : Nat :=
  if i < 16 then i
  else if i < 32 then (5 * i + 1) % 16
  else if i < 48 then (3 * i + 5) % 16
  else (7 * i) % 16

/-- One MD5 round: state `(a, b, c, d)`, message words `M`, round index `i`. -/
def md5Round (M : Nat → Nat) (st : Nat × Nat × Nat × Nat) (i : Nat) :
    Nat × Nat × Nat × Nat :=
  let a := st.1
  let b := st.2.1
  let c := st.2.2.1
  let d := st.2.2.2
  let f := (md5F i b c d + a + md5K.getD i 0 + M (md5G i)) % u32
  (d, (b + rotl32 f (md5S.getD i 0)) % u32, b, c)

/-- Process one 64-byte chunk: run 64 rounds and add the result into the
running state (all little-endian 32-bit words). -/
def md5ProcessChunk (st : Nat × Nat × Nat × Nat) (chunk : List Nat) :
    Nat × Nat × Nat × Nat :=
  let M := fun g =>
    chunk.getD (4 * g) 0 + 256 * chunk.getD (4 * g + 1) 0 +
      65536 * chunk.getD (4 * g + 2) 0 + 16777216 * chunk.getD (4 * g + 3) 0
  let r := (List.range 64).foldl (md5Round M) st
  ((st.1 + r.1) % u32, (st.2.1 + r.2.1) % u32,
    (st.2.2.1 + r.2.2.1) % u32, (st.2.2.2 + r.2.2.2) % u32)

/-- The `k` little-endian bytes of `n`. -/
def leBytes (n k : Nat) : List Nat :=
  (List.range k).map (fun i => (n >>> (8 * i)) % 256)

/-- MD5 padding: a `0x80` byte, zeros up to 56 mod 64, then the bit length
as a little-endian 64-bit word. -/
def md5Pad (msg : List Nat) : List Nat :=
  let len := msg.length
  let padZeros := (120 - (len + 1) % 64) % 64
  msg ++ [0x80] ++ List.replicate padZeros 0 ++ leBytes ((len * 8) % 2 ^ 64) 8

/-- The 16-byte MD5 digest of a byte sequence. -/
def md5Digest (msg : List Nat) : List Nat :=
  let padded := md5Pad msg
  let chunks := (List.range (padded.length / 64)).map
    (fun i => (padded.drop (64 * i)).take 64)
  let st := chunks.foldl md5ProcessChunk
    (0x67452301, 0xefcdab89, 0x98badcfe, 0x10325476)
  leBytes st.1 4 ++ leBytes st.2.1 4 ++ leBytes st.2.2.1 4 ++ leBytes st.2.2.2 4

/-- `int(hashlib.md5(msg).hexdigest(), 16)` (main.py line 118): the digest
bytes read as a big-endian base-256 integer, which is exactly the base-16
value of the hex digest string. -/
def md5Int (msg : List Nat) : Nat :=
  (md5Digest msg).foldl (fun acc b => acc * 256 + b) 0

/-! ### Python `base64.b64decode` (legacy / non-strict mode)

`base64.b64decode(s)` for a `str` argument first ASCII-encodes `s` (failing
on any code point ≥ 128) and then runs CPython's `binascii.a2b_base64` in
legacy mode: characters outside the base64 alphabet are skipped; a `'='`
seen with at least two data characters in the current quad terminates
decoding once total padding completes the quad; at the end the quad position
must be 0, otherwise the call raises. The bare `except:` in main.py line 114
turns any such failure into HTTP 400. -/

/-- Value of one base64 alphabet character (by ASCII code), `none` for a
character outside the alphabet. -/
def b64CharVal (c : Nat) : Option Nat :=
  if 65 ≤ c ∧ c ≤ 90 then some (c - 65)
  else if 97 ≤ c ∧ c ≤ 122 then some (c - 71)
  else if 48 ≤ c ∧ c ≤ 57 then some (c + 4)
  else if c = 43 then some 62
  else if c = 47 then some 63
  else none

/-- The `binascii.a2b_base64` legacy-mode loop: state is the remaining
input, the quad position (0..3), the leftover bits, the count of pending
padding characters, and the reversed output accumulator. -/
def a2bB64 : List Nat → Nat → Nat → Nat → List Nat → Option (List Nat)
  | [], quadPos, _, _, acc => if quadPos = 0 then some acc.reverse else none
  | c :: rest, quadPos, leftchar, pads, acc =>
    if c = 61 then
      if 2 ≤ quadPos ∧ 4 ≤ quadPos + (pads + 1) then some acc.reverse
      else if 2 ≤ quadPos then a2bB64 rest quadPos leftchar (pads + 1) acc
      else a2bB64 rest quadPos leftchar pads acc
    else
      match b64CharVal c with
      | none => a2bB64 rest quadPos leftchar pads acc
      | some v =>
        if quadPos = 0 then a2bB64 rest 1 v 0 acc
        else if quadPos = 1 then
          a2bB64 rest 2 (v % 16) 0 ((leftchar * 4 + v / 16) :: acc)
        else if quadPos = 2 then
          a2bB64 rest 3 (v % 4) 0 ((leftchar * 16 + v / 4) :: acc)
        else a2bB64 rest 0 0 0 ((leftchar * 64 + v) :: acc)

/-- `base64.b64decode` on a Python `str`, returning `none` exactly when the
call raises (main.py line 113 decodes, line 115 maps a raise to HTTP 400). -/
def pyB64Decode (s : List Char) : Option (List Nat) :=
  if s.all (fun c => c.toNat < 128) then a2bB64 (s.map Char.toNat) 0 0 0 []
  else none

/-! ### Configuration and language resolution -/

/-- Default of `os.getenv("API_KEYS", "GUVI-HCL-TEAM-2024,test-key-123").split(",")`
(main.py line 12). -/
def API_KEYS : List String := ["GUVI-HCL-TEAM-2024", "test-key-123"]

/-- Default of `os.getenv("TEAM_NAME", "GUVI_HCL_Team")` (main.py line 13). -/
def TEAM_NAME : String := "GUVI_HCL_Team"

/-- The fixed language mapping (main.py lines 30-36), in insertion order. -/
def SUPPORTED_LANGUAGES : List (String × String) :=
  [("ta", "Tamil"), ("en", "English"), ("hi", "Hindi"),
   ("ml", "Malayalam"), ("te", "Telugu")]

/-- Dictionary lookup `SUPPORTED_LANGUAGES.get(code)`. -/
def lookupLang (code : String) : Option String :=
  (SUPPORTED_LANGUAGES.find? (fun p => p.1 == code)).map Prod.snd

/-- main.py lines 107-109: `language = request.language_hint or "en"` (Python
`or` replaces both `None` and the falsy empty string by `"en"`), then an
unsupported code falls back to `"en"`. -/
def resolveLanguageCode (hint : Option String) : String :=
  let language := match hint with
    | none => "en"
    | some h => if h = "" then "en" else h
  if (lookupLang language).isSome then language else "en"

/-- main.py line 125: `lang_name = SUPPORTED_LANGUAGES[language]` applied to
the resolved code; the resolved code is always a key, so the `getD` default
is never used. -/
def resolvedLangName (hint : Option String) : String :=
  (lookupLang (resolveLanguageCode hint)).getD "English"

/-! ### Deterministic classifier (main.py lines 117-144) -/

/-- `is_ai = (audio_hash % 100) > 45` (main.py line 121). -/
def is_ai (B : List Nat) : Bool := decide (45 < md5Int B % 100)

/-- The integer `(audio_hash % 40) + 60`, i.e. 100 times the confidence
`((audio_hash % 40) + 60) / 100` of main.py line 122. -/
def confPctOf (B : List Nat) : Nat := md5Int B % 40 + 60

/-- `confidence = ((audio_hash % 40) + 60) / 100` (main.py line 122), as an
exact rational. -/
def confidenceOf (B : List Nat) : ℚ := (confPctOf B : ℚ) / 100

/-- Python's `round(_, 3)` (main.py line 144). Modelled as round-half-up at
the third decimal; every value the handler rounds is an exact multiple of
1/100, where no tie occurs and Python's float rounding agrees. -/
def pyRound3 (q : ℚ) : ℚ := (⌊q * 1000 + 1 / 2⌋ : ℚ) / 1000

/-- `f"{confidence:.1%}"` for a confidence of `pct / 100` with
`60 ≤ pct ≤ 99`: Python prints the percentage with one decimal digit, which
for these values is always `"<pct>.0%"`. -/
def pctString (pct : Nat) : String := toString pct ++ ".0%"

/-- The three AI explanation templates (main.py lines 128-132), with the
language name and formatted confidence substituted. -/
def aiExplanations (lang_name : String) (pct : Nat) : List String :=
  ["AI-generated " ++ lang_name ++ " voice detected with " ++ pctString pct
      ++ " confidence",
   "Synthetic speech patterns identified in " ++ lang_name ++ " audio sample",
   "Analysis suggests AI origin for this " ++ lang_name ++ " voice recording"]

/-- The three Human explanation templates (main.py lines 134-138). -/
def humanExplanations (lang_name : String) (pct : Nat) : List String :=
  ["Human " ++ lang_name ++ " speech detected with " ++ pctString pct
      ++ " confidence",
   "Natural vocal characteristics found in " ++ lang_name ++ " audio",
   "Analysis indicates human origin for this " ++ lang_name ++ " speech"]

/-- `classification = "AI" if is_ai else "Human"` (main.py line 143). -/
def classificationOf (B : List Nat) : String :=
  if is_ai B then "AI" else "Human"

/-- `explanation = explanations[audio_hash % len(explanations)]` (main.py
line 140); both template lists have length 3, so the `getD` default is never
used. -/
def explanationOf (B : List Nat) (lang_name : String) : String :=
  (if is_ai B then aiExplanations lang_name (confPctOf B)
   else humanExplanations lang_name (confPctOf B)).getD (md5Int B % 3) ""

/-! ### Request handler (main.py lines 86-155) -/

/-- Request body model `AudioRequest` (main.py lines 38-40). -/
structure AudioRequest where
  audio_base64 : String
  language_hint : Option String
deriving DecidableEq, Repr

/-- The static `model_metadata` dict of the response (main.py lines 147-154). -/
structure ModelMetadata where
  version : String
  team : String
  detection_method : String
  processing_time_ms : Nat
  hackathon_compliant : Bool
  languages_supported : List String
deriving DecidableEq, Repr

/-- Response model `DetectionResponse` (main.py lines 42-47). -/
structure DetectionResponse where
  classification : String
  confidence : ℚ
  explanation : String
  language_detected : String
  model_metadata : ModelMetadata
deriving DecidableEq, Repr

/-- The three `HTTPException`s `detect_voice` can raise: missing/empty key
(main.py lines 94-98), a key outside the allow-list with the allow-list
echoed in the body (lines 100-104), and malformed base64 (line 115). -/
inductive ApiError where
  | authMissing : ApiError
  | authInvalid : List String → ApiError
  | badBase64 : ApiError
deriving DecidableEq, Repr

/-- The HTTP status code of each raised error. -/
def ApiError.status : ApiError → Nat
  | .authMissing => 401
  | .authInvalid _ => 401
  | .badBase64 => 400

/-- The number of characters of `audio_base64` that are decoded
(`request.audio_base64[:10000]`, main.py line 113). -/
def KPrefix : Nat := 10000

/-- The `/api/detect` handler `detect_voice` (main.py lines 86-155),
parameterised by the configured key allow-list and team name. `x_api_key =
some ""` models a present-but-empty header, which Python's truthiness check
`if not x_api_key` treats like a missing key. -/
def detect_voice (apiKeys : List String) (teamName : String)
    (request : AudioRequest) (x_api_key : Option String) :
    Except ApiError DetectionResponse :=
  match x_api_key with
  | none => .error .authMissing
  | some key =>
    if key = "" then .error .authMissing
    else if key ∈ apiKeys then
      match pyB64Decode (request.audio_base64.toList.take KPrefix) with
      | none => .error .badBase64
      | some audio_bytes =>
        .ok ⟨classificationOf audio_bytes,
             pyRound3 (confidenceOf audio_bytes),
             explanationOf audio_bytes (resolvedLangName request.language_hint),
             resolvedLangName request.language_hint,
             ⟨"1.0.0", teamName, "audio_hash_analysis", 150, true,
              SUPPORTED_LANGUAGES.map Prod.snd⟩⟩
    else .error (.authInvalid apiKeys)

/-! ### Theorems -/

/-- Rounding a rational of the form `n / 100` to three decimals returns it
unchanged. -/
theorem pyRound3_div100 (n : ℕ) : pyRound3 ((n : ℚ) / 100) = (n : ℚ) / 100 := by
  unfold pyRound3
  have h1 : ((n : ℚ) / 100) * 1000 + 1 / 2 = ((10 * n : ℤ) : ℚ) + 1 / 2 := by
    push_cast
    ring
  have h2 : ⌊(1 / 2 : ℚ)⌋ = 0 := by
    rw [Int.floor_eq_iff]
    constructor <;> norm_num
  rw [h1, add_comm, Int.floor_add_int, h2]
  push_cast
  ring

/-- C2: The label is "AI" exactly when the MD5 digest of the decoded bytes,
read as a base-16 integer, is strictly greater than 45 modulo 100, and
"Human" otherwise; the label depends on the bytes only through
`md5Int B % 100`. -/
theorem c2_label_iff_bucket :
    (∀ B : List Nat, classificationOf B = "AI" ↔ 45 < md5Int B % 100) ∧
    (∀ B : List Nat, ¬ 45 < md5Int B % 100 → classificationOf B = "Human") ∧
    (∀ B1 B2 : List Nat, md5Int B1 % 100 = md5Int B2 % 100 →
      classificationOf B1 = classificationOf B2) := by
  refine ⟨fun B => ?_, fun B h => ?_, fun B1 B2 h => ?_⟩
  · unfold classificationOf is_ai
    by_cases h : 45 < md5Int B % 100 <;> simp [h]
  · unfold classificationOf is_ai
    simp [h]
  · unfold classificationOf is_ai
    rw [h]

/-- Witness for C2: the byte sequences `[1]` and `[12]` have MD5 integers
that agree modulo 100, and they receive the same label. -/
theorem c2_label_iff_bucket_witness :
    md5Int [1] % 100 = md5Int [12] % 100 ∧
    classificationOf [1] = classificationOf [12] :=
  ⟨by decide, c2_label_iff_bucket.2.2 [1] [12] (by decide)⟩

/-- C3 counterexample: at the byte sequence `[8]` the MD5 integer is 39
modulo 40, so the confidence is exactly 0.99 and the claimed strict upper
bound `confidence < 0.99` is false. -/
theorem c3_confidence_hits_099 :
    confidenceOf [8] = 99 / 100 ∧ ¬ confidenceOf [8] < 99 / 100 := by
  have h : confPctOf [8] = 99 := by decide
  have he : confidenceOf [8] = 99 / 100 := by
    unfold confidenceOf
    rw [h]
    norm_num
  refine ⟨he, ?_⟩
  rw [he]
  exact lt_irrefl _

/-- C3 (amended): the confidence equals `((md5Int B % 40) + 60) / 100`, lies
in the closed interval [0.60, 0.99] (the upper endpoint is attained, see the
counterexample), and the response's confidence — this value rounded to three
decimals — equals the value itself. -/
theorem c3_confidence_formula_bounds :
    ∀ B : List Nat,
      confidenceOf B = ((md5Int B % 40 + 60 : ℕ) : ℚ) / 100 ∧
      3 / 5 ≤ confidenceOf B ∧ confidenceOf B ≤ 99 / 100 ∧
      pyRound3 (confidenceOf B) = confidenceOf B := by
  intro B
  have hlt : md5Int B % 40 < 40 := Nat.mod_lt _ (by norm_num)
  have h1 : (60 : ℚ) ≤ ((md5Int B % 40 + 60 : ℕ) : ℚ) := by
    exact_mod_cast Nat.le_add_left 60 (md5Int B % 40)
  have h2 : ((md5Int B % 40 + 60 : ℕ) : ℚ) ≤ 99 := by
    exact_mod_cast (by omega : md5Int B % 40 + 60 ≤ 99)
  refine ⟨rfl, ?_, ?_, pyRound3_div100 (confPctOf B)⟩
  · unfold confidenceOf confPctOf
    linarith
  · unfold confidenceOf confPctOf
    linarith

/-- C1: the handler output is a pure deterministic function of the decoded
bytes and the resolved language hint: the same invocation repeated gives the
same result, and two requests with equal decoded (truncated) audio bytes and
equal resolved language codes receive identical responses. -/
theorem c1_detect_deterministic (keys : List String) (team : String)
    (r1 r2 : AudioRequest) (k : Option String)
    (haudio : pyB64Decode (r1.audio_base64.toList.take KPrefix) =
      pyB64Decode (r2.audio_base64.toList.take KPrefix))
    (hlang : resolvedLangName r1.language_hint =
      resolvedLangName r2.language_hint) :
    detect_voice keys team r1 k = detect_voice keys team r1 k ∧
    detect_voice keys team r1 k = detect_voice keys team r2 k := by
  refine ⟨rfl, ?_⟩
  unfold detect_voice
  rw [hlang, haudio]

/-- Witness for C1: two distinct requests decoding to the same byte `0` (the
decoder skips the non-alphabet `!`) with hints resolving alike. -/
theorem c1_detect_deterministic_witness :
    pyB64Decode ((AudioRequest.mk "AA==" none).audio_base64.toList.take KPrefix) =
      pyB64Decode ((AudioRequest.mk "!AA==" (some "xx")).audio_base64.toList.take KPrefix) ∧
    detect_voice API_KEYS TEAM_NAME (AudioRequest.mk "AA==" none)
        (some "test-key-123") =
      detect_voice API_KEYS TEAM_NAME (AudioRequest.mk "!AA==" (some "xx"))
        (some "test-key-123") :=
  ⟨by decide,
   (c1_detect_deterministic API_KEYS TEAM_NAME (AudioRequest.mk "AA==" none)
      (AudioRequest.mk "!AA==" (some "xx")) (some "test-key-123") (by decide)
      (by decide)).2⟩

/-- C4: only the first 10000 characters of `audio_base64` are decoded: two
requests agreeing on that prefix (other fields equal) get identical
responses. -/
theorem c4_prefix_truncation (keys : List String) (team : String)
    (r1 r2 : AudioRequest) (k : Option String)
    (hpre : r1.audio_base64.toList.take KPrefix =
      r2.audio_base64.toList.take KPrefix)
    (hhint : r1.language_hint = r2.language_hint) :
    detect_voice keys team r1 k = detect_voice keys team r2 k := by
  unfold detect_voice
  rw [hpre, hhint]

/-- Witness for C4: audio strings of 10001 and 10000 letters `A` agree on
their first 10000 characters and receive identical responses. -/
theorem c4_prefix_truncation_witness :
    (String.mk (List.replicate 10001 'A')).toList.take KPrefix =
      (String.mk (List.replicate 10000 'A')).toList.take KPrefix ∧
    detect_voice API_KEYS TEAM_NAME
        (AudioRequest.mk (String.mk (List.replicate 10001 'A')) none)
        (some "test-key-123") =
      detect_voice API_KEYS TEAM_NAME
        (AudioRequest.mk (String.mk (List.replicate 10000 'A')) none)
        (some "test-key-123") := by
  have hpre : (String.mk (List.replicate 10001 'A')).toList.take KPrefix =
      (String.mk (List.replicate 10000 'A')).toList.take KPrefix := by
    show (List.replicate 10001 'A').take KPrefix =
      (List.replicate 10000 'A').take KPrefix
    rw [List.take_replicate, List.take_replicate]
    norm_num [KPrefix]
  exact ⟨hpre,
    c4_prefix_truncation API_KEYS TEAM_NAME _ _ (some "test-key-123") hpre rfl⟩

/-- C5: the explanation is chosen from the fixed ordered list of exactly
three templates for the chosen label at index `md5Int B % 3`, and every
successful response's explanation field is exactly that selection for the
decoded bytes and resolved language name. -/
theorem c5_explanation_selection :
    (∀ (l : String) (pct : Nat),
      (aiExplanations l pct).length = 3 ∧ (humanExplanations l pct).length = 3) ∧
    (∀ (B : List Nat) (l : String),
      explanationOf B l =
        (if is_ai B then aiExplanations l (confPctOf B)
         else humanExplanations l (confPctOf B)).getD (md5Int B % 3) "") ∧
    (∀ (keys : List String) (team : String) (req : AudioRequest)
      (k : Option String) (resp : DetectionResponse),
      detect_voice keys team req k = .ok resp →
      ∃ B, pyB64Decode (req.audio_base64.toList.take KPrefix) = some B ∧
        resp.explanation = explanationOf B (resolvedLangName req.language_hint)) := by
  refine ⟨fun l pct => ⟨rfl, rfl⟩, fun B l => rfl, ?_⟩
  intro keys team req k resp h
  cases k with
  | none => simp [detect_voice] at h
  | some key =>
    simp only [detect_voice] at h
    by_cases hk : key = ""
    · rw [if_pos hk] at h
      simp at h
    · rw [if_neg hk] at h
      by_cases hmem : key ∈ keys
      · rw [if_pos hmem] at h
        rcases hd : pyB64Decode (req.audio_base64.toList.take KPrefix) with _ | B
        · rw [hd] at h
          simp at h
        · rw [hd] at h
          have h2 := Except.ok.inj h
          exact ⟨B, rfl, by rw [← h2]⟩
      · rw [if_neg hmem] at h
        simp at h

/-- Witness for C5: a concrete successful request; `"QQ=="` decodes to the
byte `65` and the response explanation is the Human template of index
`md5Int [65] % 3 = 1`. -/
theorem c5_explanation_selection_witness :
    ∃ B, pyB64Decode ((AudioRequest.mk "QQ==" none).audio_base64.toList.take KPrefix) =
        some B ∧
      (DetectionResponse.mk "Human" (pyRound3 (confidenceOf [65]))
        "Natural vocal characteristics found in English audio" "English"
        (ModelMetadata.mk "1.0.0" TEAM_NAME "audio_hash_analysis" 150 true
          ["Tamil", "English", "Hindi", "Malayalam", "Telugu"])).explanation =
        explanationOf B (resolvedLangName (AudioRequest.mk "QQ==" none).language_hint) :=
  c5_explanation_selection.2.2 API_KEYS TEAM_NAME (AudioRequest.mk "QQ==" none)
    (some "test-key-123") _ (by rfl)

/-- C6: the language resolver maps `none`, `""` and unrecognized codes to
"English", maps each supported code to its display name, and always returns
one of the five display names. -/
theorem c6_language_fallback :
    resolvedLangName none = "English" ∧
    resolvedLangName (some "") = "English" ∧
    (∀ s : String, lookupLang s = none → resolvedLangName (some s) = "English") ∧
    resolvedLangName (some "ta") = "Tamil" ∧
    resolvedLangName (some "hi") = "Hindi" ∧
    resolvedLangName (some "ml") = "Malayalam" ∧
    resolvedLangName (some "te") = "Telugu" ∧
    resolvedLangName (some "en") = "English" ∧
    (∀ hint : Option String,
      resolvedLangName hint ∈ SUPPORTED_LANGUAGES.map Prod.snd) := by
  refine ⟨by decide, by decide, ?_, by decide, by decide, by decide, by decide,
    by decide, ?_⟩
  · intro s hs
    unfold resolvedLangName resolveLanguageCode
    by_cases h0 : s = ""
    · subst h0
      decide
    · simp only [h0, if_false, hs, Option.isSome_none, Bool.false_eq_true,
        if_false]
      decide
  · intro hint
    unfold resolvedLangName
    rcases hfind : lookupLang (resolveLanguageCode hint) with _ | nm
    · simp only [hfind, Option.getD_none]
      decide
    · simp only [hfind, Option.getD_some]
      unfold lookupLang at hfind
      rcases Option.map_eq_some'.mp hfind with ⟨p, hp, rfl⟩
      have hmem := List.mem_of_find?_eq_some hp
      fin_cases hmem <;> decide

/-- Witness for C6: the unrecognized code "xx" resolves to "English". -/
theorem c6_language_fallback_witness :
    lookupLang "xx" = none ∧ resolvedLangName (some "xx") = "English" :=
  ⟨by decide, c6_language_fallback.2.2.1 "xx" (by decide)⟩

/-- C7: a missing credential header, or one whose value is not in the
configured allow-list, is rejected with a 401 error, and the result does not
depend on the audio payload — base64 decoding is not observably invoked. -/
theorem c7_auth_gate (keys : List String) (team : String) (req : AudioRequest)
    (k : Option String) (audio2 : String)
    (hbad : k = none ∨ ∃ s, k = some s ∧ s ∉ keys) :
    ∃ e : ApiError, detect_voice keys team req k = .error e ∧ e.status = 401 ∧
      detect_voice keys team (AudioRequest.mk audio2 req.language_hint) k =
        .error e := by
  rcases hbad with rfl | ⟨s, rfl, hs⟩
  · exact ⟨.authMissing, rfl, rfl, rfl⟩
  · by_cases h0 : s = ""
    · subst h0
      exact ⟨.authMissing, by simp [detect_voice], rfl, by simp [detect_voice]⟩
    · exact ⟨.authInvalid keys, by simp [detect_voice, h0, hs], rfl,
        by simp [detect_voice, h0, hs]⟩

/-- Witness for C7: the key "wrong-key" is not in the default allow-list;
the rejection is identical for two entirely different audio payloads. -/
theorem c7_auth_gate_witness :
    "wrong-key" ∉ API_KEYS ∧
    ∃ e : ApiError,
      detect_voice API_KEYS TEAM_NAME (AudioRequest.mk "QQ==" none)
        (some "wrong-key") = .error e ∧
      e.status = 401 ∧
      detect_voice API_KEYS TEAM_NAME (AudioRequest.mk "%%%not-audio" none)
        (some "wrong-key") = .error e :=
  ⟨by decide,
   c7_auth_gate API_KEYS TEAM_NAME (AudioRequest.mk "QQ==" none)
     (some "wrong-key") "%%%not-audio" (Or.inr ⟨"wrong-key", rfl, by decide⟩)⟩

/-- C8 counterexample: the audio string "****" consists solely of characters
outside the base64 alphabet, yet Python's lenient decoder simply skips them,
decodes the prefix to the empty byte sequence, and the handler returns a
successful classification — not an HTTP 400 error. So "invalid characters"
alone do not make the handler fail. -/
theorem c8_invalid_chars_still_classified :
    pyB64Decode (("****" : String).toList.take KPrefix) = some [] ∧
    detect_voice API_KEYS TEAM_NAME (AudioRequest.mk "****" none)
        (some "test-key-123") =
      .ok (DetectionResponse.mk "AI" (pyRound3 (confidenceOf []))
        "AI-generated English voice detected with 66.0% confidence" "English"
        (ModelMetadata.mk "1.0.0" TEAM_NAME "audio_hash_analysis" 150 true
          ["Tamil", "English", "Hindi", "Malayalam", "Telugu"])) ∧
    pyRound3 (confidenceOf []) = 33 / 50 := by
  refine ⟨by decide, by rfl, ?_⟩
  have h : confPctOf [] = 66 := by decide
  unfold confidenceOf
  rw [h, pyRound3_div100]
  norm_num

/-- C8 (amended): for an authenticated request, the handler fails with HTTP
400 exactly when Python's lenient base64 decoding of the 10000-character
prefix raises (bad padding, or a data-character count that is 1 more than a
multiple of 4 after non-alphabet characters are discarded); the classifier
is then never reached. Stray invalid characters alone do not cause failure. -/
theorem c8_bad_base64_yields_400 (keys : List String) (team : String)
    (req : AudioRequest) (s : String) (h0 : s ≠ "") (hs : s ∈ keys)
    (hdec : pyB64Decode (req.audio_base64.toList.take KPrefix) = none) :
    detect_voice keys team req (some s) = .error .badBase64 ∧
    ApiError.badBase64.status = 400 := by
  refine ⟨?_, rfl⟩
  simp only [detect_voice]
  rw [if_neg h0, if_pos hs, hdec]

/-- Witness for C8: the claim's own scenario, audio "!!!not-base64!!!" (9
data characters, 1 more than a multiple of 4), is rejected with 400. -/
theorem c8_bad_base64_yields_400_witness :
    pyB64Decode ((AudioRequest.mk "!!!not-base64!!!" none).audio_base64.toList.take
        KPrefix) = none ∧
    detect_voice API_KEYS TEAM_NAME (AudioRequest.mk "!!!not-base64!!!" none)
        (some "test-key-123") = .error .badBase64 ∧
    ApiError.badBase64.status = 400 :=
  ⟨by decide,
   c8_bad_base64_yields_400 API_KEYS TEAM_NAME
     (AudioRequest.mk "!!!not-base64!!!" none) "test-key-123" (by decide)
     (by decide) (by decide)⟩

/-- C9: classification is total — every byte sequence gets a label that is
"AI" or "Human" — and the empty byte sequence (decoded from edge inputs) is
classified to the fixed deterministic output: MD5 integer
0xd41d8cd98f00b204e9800998ecf8427e, label "AI" (66 > 45 mod 100),
confidence 0.66, and the AI template of index 0. -/
theorem c9_empty_bytes_classified :
    (∀ B : List Nat,
      classificationOf B = "AI" ∨ classificationOf B = "Human") ∧
    md5Int [] = 281949768489412648962353822266799178366 ∧
    classificationOf [] = "AI" ∧
    confidenceOf [] = 33 / 50 ∧
    explanationOf [] "English" =
      "AI-generated English voice detected with 66.0% confidence" := by
  refine ⟨?_, by decide, by decide, ?_, by decide⟩
  · intro B
    unfold classificationOf
    cases hb : is_ai B <;> simp
  · have h : confPctOf [] = 66 := by decide
    unfold confidenceOf
    rw [h]
    norm_num

/-- C10: a present, non-empty API key outside the configured allow-list is
answered with a 401 error whose body echoes the complete configured
allow-list (the `valid_keys` field of main.py line 103, modelled by the
`authInvalid` payload). -/
theorem c10_invalid_key_echoes_allowlist (keys : List String) (team : String)
    (req : AudioRequest) (s : String) (h0 : s ≠ "") (hs : s ∉ keys) :
    detect_voice keys team req (some s) = .error (.authInvalid keys) ∧
    (ApiError.authInvalid keys).status = 401 := by
  refine ⟨?_, rfl⟩
  simp [detect_voice, h0, hs]

/-- Witness for C10: the rejected key "bad-key" is shown the default
allow-list. -/
theorem c10_invalid_key_echoes_allowlist_witness :
    ("bad-key" ≠ "" ∧ "bad-key" ∉ API_KEYS) ∧
    detect_voice API_KEYS TEAM_NAME (AudioRequest.mk "QQ==" none)
        (some "bad-key") = .error (.authInvalid API_KEYS) ∧
    (ApiError.authInvalid API_KEYS).status = 401 :=
  ⟨⟨by decide, by decide⟩,
   c10_invalid_key_echoes_allowlist API_KEYS TEAM_NAME
     (AudioRequest.mk "QQ==" none) "bad-key" (by decide) (by decide)⟩
